import Mathlib

/-!
Verification of the trial/subscription eligibility gate and activation
workflow of `frontend/src/app/activate-trial/page.tsx`.

The page reconciles two independently-loading remote snapshots
(subscription tier, trial status) into one navigation decision, and
drives the start-trial checkout handoff.  We embed the gate `useEffect`,
the render branch, and `handleStartTrial` as pure Lean functions over
explicit state, recording the observable effects (router pushes, full
navigations, outbound requests, toast notifications) as data.
-/

namespace ActivateTrial

/-- Billing tier object as returned by Get Subscription: `{ name : string }`. -/
structure Tier where
  name : String
  deriving DecidableEq, Repr

/-- Subscription snapshot: `subscription.tier` may be `null`/absent
(JS falsy), modelled as `Option`. -/
structure SubscriptionSnapshot where
  tier : Option Tier
  deriving DecidableEq, Repr

/-- Trial snapshot: `has_trial` boolean and `trial_status` string,
possibly absent (`undefined`), modelled as `Option String`. -/
structure TrialSnapshot where
  has_trial : Bool
  trial_status : Option String
  deriving DecidableEq, Repr

/-- The page's reactive inputs: the two loading flags and the two data
values of `useSubscription()` and `useTrialStatus()`.  A query that has
finished loading but produced no data (failure) shows up as a loading
flag `false` with data `none`. -/
structure GateInput where
  isLoadingSubscription : Bool
  isLoadingTrial : Bool
  subscription : Option SubscriptionSnapshot
  trialStatus : Option TrialSnapshot
  deriving DecidableEq, Repr

/-- A client-side route transition `router.push p`. -/
inductive Nav where
  | push : String → Nav
  deriving DecidableEq, Repr

/-- The gate `useEffect` (page.tsx lines 21-38): when neither query is
loading and both data objects are present (JS truthiness: objects are
truthy), compute `hasActiveTrial`, `hasUsedTrial`, `hasActiveSubscription`
and issue at most one `router.push`.  The returned list is the sequence
of navigation calls made by one evaluation of the effect. -/
def gateEffect (g : GateInput) : List Nav :=
  if !g.isLoadingSubscription && !g.isLoadingTrial then
    match g.subscription, g.trialStatus with
    | some subscription, some trialStatus =>
        let hasActiveTrial := trialStatus.has_trial && (trialStatus.trial_status == some "active")
        let hasUsedTrial := trialStatus.trial_status == some "used"
          || trialStatus.trial_status == some "expired"
          || trialStatus.trial_status == some "cancelled"
          || trialStatus.trial_status == some "converted"
        let hasActiveSubscription :=
          match subscription.tier with
          | some tier => !(tier.name == "none") && !(tier.name == "free")
          | none => false
        if hasActiveTrial || hasActiveSubscription then [Nav.push "/dashboard"]
        else if hasUsedTrial then [Nav.push "/subscription"]
        else []
    | _, _ => []
  else []

/-- What the page renders: the loading skeleton or the trial-offer card. -/
inductive RenderView where
  | loadingSkeleton
  | offerTrialCard
  deriving DecidableEq, Repr

/-- The render branch (page.tsx lines 56-75): `isLoading =
isLoadingSubscription || isLoadingTrial`; the skeleton while loading,
otherwise the trial-offer card. -/
def render (g : GateInput) : RenderView :=
  if g.isLoadingSubscription || g.isLoadingTrial then RenderView.loadingSkeleton
  else RenderView.offerTrialCard

/-- The spec's derived `GateDecision` value. -/
inductive GateDecision where
  | Loading
  | RedirectToDashboard
  | RedirectToSubscription
  | OfferTrial
  deriving DecidableEq, Repr

/-- The decision the page observably takes, derived from the code's two
outputs: while loading the skeleton shows (`Loading`); a `router.push`
from the gate effect is a redirect; otherwise the offer card is shown
(`OfferTrial`). -/
def gateDecision (g : GateInput) : GateDecision :=
  if render g = RenderView.loadingSkeleton then GateDecision.Loading
  else if gateEffect g = [Nav.push "/dashboard"] then GateDecision.RedirectToDashboard
  else if gateEffect g = [Nav.push "/subscription"] then GateDecision.RedirectToSubscription
  else GateDecision.OfferTrial

/-- A settled input pair: both queries finished and both returned data. -/
def settled (s : SubscriptionSnapshot) (t : TrialSnapshot) : GateInput :=
  { isLoadingSubscription := false
  , isLoadingTrial := false
  , subscription := some s
  , trialStatus := some t }

/-- Modelled from the spec: "active-trial" iff `has_trial == true AND
trial_status == active`. -/
def specActiveTrial (t : TrialSnapshot) : Bool :=
  t.has_trial && (t.trial_status == some "active")

/-- Modelled from the spec: a snapshot is "entitled" iff `tier` is present
and not in the set of the names "none" and "free". -/
def specEntitled (s : SubscriptionSnapshot) : Bool :=
  match s.tier with
  | some t => !(t.name == "none") && !(t.name == "free")
  | none => false

/-- Modelled from the spec: "exhausted-trial" iff `trial_status` is one of
used, expired, cancelled, converted. -/
def specExhaustedTrial (t : TrialSnapshot) : Bool :=
  t.trial_status == some "used" || t.trial_status == some "expired"
    || t.trial_status == some "cancelled" || t.trial_status == some "converted"

/-- A `trial_status` value recognized by the gate: `active` or one of the
four exhausted statuses. -/
def recognizedStatus (o : Option String) : Bool :=
  o == some "active" || o == some "used" || o == some "expired"
    || o == some "cancelled" || o == some "converted"

lemma gateEffect_settled (s : SubscriptionSnapshot) (t : TrialSnapshot) :
    gateEffect (settled s t) =
      (if specActiveTrial t || specEntitled s then [Nav.push "/dashboard"]
       else if specExhaustedTrial t then [Nav.push "/subscription"]
       else []) := by
  rfl

lemma render_settled (s : SubscriptionSnapshot) (t : TrialSnapshot) :
    render (settled s t) = RenderView.offerTrialCard := by
  rfl

/-- The start-trial request body (page.tsx lines 42-45): `success_url` and
`cancel_url`, both required strings. -/
structure ActivationRequest where
  success_url : String
  cancel_url : String
  deriving DecidableEq, Repr

/-- The start-trial success payload; `checkout_url` may be absent
(`undefined`), modelled as `Option String` (it may also be the empty
string, which JS treats as falsy). -/
structure ActivationResult where
  checkout_url : Option String
  deriving DecidableEq, Repr

/-- A thrown error as observed by the catch block: `error?.message` may be
absent. -/
structure ErrorInfo where
  message : Option String
  deriving DecidableEq, Repr

/-- The request `handleStartTrial` builds from `window.location.origin`:
`origin + "/dashboard?trial=started"` and `origin + "/activate-trial"`. -/
def buildRequest (origin : String) : ActivationRequest :=
  { success_url := origin ++ "/dashboard?trial=started"
  , cancel_url := origin ++ "/activate-trial" }

/-- JS truthiness of `result.checkout_url`: `undefined` and the empty
string are falsy. -/
def jsTruthy : Option String → Bool
  | some s => !(s == "")
  | none => false

/-- Observable effects of one `handleStartTrial` invocation: outbound
start-trial requests issued, full-page navigations
(`window.location.href` assignments), and toast notifications shown. -/
structure HandlerEffects where
  requests : List ActivationRequest
  navigations : List String
  toasts : List String
  deriving DecidableEq, Repr

/-- The generic fallback toast text (page.tsx line 52). -/
def fallbackMessage : String := "Failed to start trial. Please try again."

/-- The toast text of the catch block: `error?.message || fallback` —
JS `||` falls through on `undefined` and on the empty string. -/
def toastMessage (e : ErrorInfo) : String :=
  match e.message with
  | some m => if m == "" then fallbackMessage else m
  | none => fallbackMessage

/-- The try-block of `handleStartTrial` (page.tsx lines 41-49), before the
catch is applied.  `outcome` is how the awaited `mutateAsync` call
resolves (the request is issued either way); `navError` is whether the
subsequent `window.location.href` assignment itself throws.  An `error`
value is an exception escaping the try-block. -/
def handleStartTrialBody (origin : String) (outcome : Except ErrorInfo ActivationResult)
    (navError : Option ErrorInfo) : Except ErrorInfo HandlerEffects :=
  match outcome with
  | Except.error e => Except.error e
  | Except.ok result =>
      if jsTruthy result.checkout_url then
        match navError with
        | some e => Except.error e
        | none =>
            Except.ok
              { requests := [buildRequest origin]
              , navigations := [result.checkout_url.getD ""]
              , toasts := [] }
      else
        Except.ok { requests := [buildRequest origin], navigations := [], toasts := [] }

/-- The whole `handleStartTrial` (page.tsx lines 40-54): the try-block with
the catch block applied — any escaping exception becomes a single
`toast.error` with the message of `toastMessage`. -/
def handleStartTrial (origin : String) (outcome : Except ErrorInfo ActivationResult)
    (navError : Option ErrorInfo) : HandlerEffects :=
  match handleStartTrialBody origin outcome navError with
  | Except.ok effs => effs
  | Except.error e =>
      { requests := [buildRequest origin], navigations := [], toasts := [toastMessage e] }

/-- How one invocation of `handleStartTrial` terminates from the caller's
(UI's) point of view: it either runs to completion with some effects, or
it propagates an exception. -/
inductive HandlerOutcome where
  | completed : HandlerEffects → HandlerOutcome
  | threw : ErrorInfo → HandlerOutcome
  deriving DecidableEq, Repr

/-- Termination behaviour of `handleStartTrial`: the try-block's escaping
exceptions are caught and turned into the toast path, so the caller
always sees `completed`. -/
def runHandleStartTrial (origin : String) (outcome : Except ErrorInfo ActivationResult)
    (navError : Option ErrorInfo) : HandlerOutcome :=
  match handleStartTrialBody origin outcome navError with
  | Except.ok effs => HandlerOutcome.completed effs
  | Except.error e =>
      HandlerOutcome.completed
        { requests := [buildRequest origin], navigations := [], toasts := [toastMessage e] }

/-- UI state relevant to the start button: `startTrialMutation.isPending`,
the in-flight flag of the single outstanding start-trial request. -/
structure UiState where
  isPending : Bool
  deriving DecidableEq, Repr

/-- One user click on the start-trial button (page.tsx lines 128-131): the
button carries `disabled = startTrialMutation.isPending`, so a click
while a request is in flight never reaches `handleStartTrial`; otherwise
the handler runs, `mutateAsync` issues one outbound request and the
mutation becomes pending.  Returns the new state and the requests
issued by this click. -/
def clickStartTrial (origin : String) (s : UiState) : UiState × List ActivationRequest :=
  if s.isPending then (s, [])
  else ({ isPending := true }, [buildRequest origin])

/-- A burst of `n` rapid clicks, processed one after the other on the UI
event loop, with the first request still in flight throughout (no
completion event is interleaved). -/
def rapidClicks (origin : String) (s : UiState) : Nat → UiState × List ActivationRequest
  | 0 => (s, [])
  | n + 1 =>
      let first := clickStartTrial origin s
      let rest := rapidClicks origin first.1 n
      (rest.1, first.2 ++ rest.2)

lemma rapidClicks_pending (origin : String) (n : Nat) :
    rapidClicks origin { isPending := true } n = ({ isPending := true }, []) := by
  induction n with
  | zero => rfl
  | succ n ih => simp [rapidClicks, clickStartTrial, ih]

/-- Claim C2: for every pair of settled snapshots, the gate decision follows
the fixed precedence order with first match winning: active trial or
entitled tier gives `RedirectToDashboard`; otherwise an exhausted trial
status gives `RedirectToSubscription`; otherwise `OfferTrial`.  In
particular an active trial or entitled subscription beats an
exhausted-trial signal. -/
theorem gate_precedence (s : SubscriptionSnapshot) (t : TrialSnapshot) :
    gateDecision (settled s t) =
      (if specActiveTrial t || specEntitled s then GateDecision.RedirectToDashboard
       else if specExhaustedTrial t then GateDecision.RedirectToSubscription
       else GateDecision.OfferTrial) := by
  rw [gateDecision, render_settled, gateEffect_settled]
  cases hA : (specActiveTrial t || specEntitled s) <;>
    cases hE : specExhaustedTrial t <;> simp

/-- Claim C3: while either query is still loading, the gate decision is
`Loading`: the effect issues no navigation and the render is the loading
skeleton, not the trial offer. -/
theorem gate_loading_absorbs (g : GateInput)
    (h : (g.isLoadingSubscription || g.isLoadingTrial) = true) :
    gateDecision g = GateDecision.Loading ∧ gateEffect g = [] ∧
      render g = RenderView.loadingSkeleton := by
  cases hs : g.isLoadingSubscription <;> cases ht : g.isLoadingTrial <;>
    simp [hs, ht] at h <;>
    simp [gateDecision, gateEffect, render, hs, ht]

/-- Witness for `gate_loading_absorbs` at a concrete pending state. -/
theorem gate_loading_absorbs_w :
    gateDecision ⟨true, false, none, none⟩ = GateDecision.Loading :=
  (gate_loading_absorbs ⟨true, false, none, none⟩ (by decide)).1

/-- Counterexample to claim C4: with both loads finished but both data
values absent (query failure), the page resolves to `OfferTrial` and
renders the trial-offer card, so the offer IS presented while the true
entitlement state is unknown. -/
theorem query_failure_offer_cex :
    gateDecision ⟨false, false, none, none⟩ = GateDecision.OfferTrial ∧
      render ⟨false, false, none, none⟩ = RenderView.offerTrialCard := by
  exact ⟨rfl, rfl⟩

/-- Claim C4 as amended: when either query's data is absent although
loading has finished, the gate issues no redirect navigation, but it does
resolve to `OfferTrial` and the trial-offer card is rendered. -/
theorem query_failure_no_redirect (g : GateInput)
    (h1 : g.isLoadingSubscription = false) (h2 : g.isLoadingTrial = false)
    (h3 : g.subscription = none ∨ g.trialStatus = none) :
    gateEffect g = [] ∧ gateDecision g = GateDecision.OfferTrial ∧
      render g = RenderView.offerTrialCard := by
  have he : gateEffect g = [] := by
    unfold gateEffect
    rw [h1, h2]
    rcases h3 with h3 | h3 <;> rw [h3]
    · rfl
    · cases hx : g.subscription <;> rfl
  refine ⟨he, ?_, ?_⟩ <;> simp [gateDecision, render, he, h1, h2]

/-- Witness for `query_failure_no_redirect` at a concrete failed-query state. -/
theorem query_failure_no_redirect_w :
    gateDecision ⟨false, false, some ⟨some ⟨"pro"⟩⟩, none⟩ = GateDecision.OfferTrial :=
  (query_failure_no_redirect ⟨false, false, some ⟨some ⟨"pro"⟩⟩, none⟩ rfl rfl
    (Or.inr rfl)).2.1

/-- Claim C8: a settled pair whose `trial_status` lies outside the
recognized set (or is absent), with a non-entitled subscription, falls
through to `OfferTrial`; an unrecognized status never triggers a
redirect. -/
theorem unrecognized_status_offer (s : SubscriptionSnapshot) (t : TrialSnapshot)
    (hu : recognizedStatus t.trial_status = false) (hs : specEntitled s = false) :
    gateDecision (settled s t) = GateDecision.OfferTrial ∧
      gateEffect (settled s t) = [] := by
  simp only [recognizedStatus, Bool.or_eq_false_iff] at hu
  have hA : specActiveTrial t = false := by
    simp [specActiveTrial, hu.1.1.1.1]
  have hE : specExhaustedTrial t = false := by
    simp [specExhaustedTrial, hu.1.1.1.2, hu.1.1.2, hu.1.2, hu.2]
  constructor
  · simp [gateDecision, render_settled, gateEffect_settled, hA, hE, hs]
  · simp [gateEffect_settled, hA, hE, hs]

/-- Witness for `unrecognized_status_offer` at a concrete unknown status. -/
theorem unrecognized_status_offer_w :
    gateDecision (settled ⟨none⟩ ⟨true, some "weird"⟩) = GateDecision.OfferTrial :=
  (unrecognized_status_offer ⟨none⟩ ⟨true, some "weird"⟩ (by decide) (by decide)).1

/-- Claim C9: one evaluation of the gate effect issues at most one
navigation — the empty list, a single push to the dashboard, or a single
push to the subscription page — never both redirects. -/
theorem gate_single_navigation (g : GateInput) :
    gateEffect g = [] ∨ gateEffect g = [Nav.push "/dashboard"] ∨
      gateEffect g = [Nav.push "/subscription"] := by
  obtain ⟨ls, lt, sub, tri⟩ := g
  cases ls
  case true => left ; rfl
  cases lt
  case true => left ; rfl
  rcases sub with _ | s
  · left ; rfl
  rcases tri with _ | t
  · left ; rfl
  rw [show (⟨false, false, some s, some t⟩ : GateInput) = settled s t from rfl,
    gateEffect_settled]
  cases hA : (specActiveTrial t || specEntitled s) <;>
    cases hE : specExhaustedTrial t <;> simp

/-- Counterexample to claim C1: a Start Trial success whose result has an
absent `checkout_url` produces zero navigations but also ZERO
notifications — not the one failure notification the claim requires (the
catch block only fires on exceptions, and this path does not throw). -/
theorem checkout_missing_cex :
    (handleStartTrial "https://app.example" (Except.ok ⟨none⟩) none).navigations = [] ∧
      (handleStartTrial "https://app.example" (Except.ok ⟨none⟩) none).toasts = [] ∧
      ¬ (handleStartTrial "https://app.example" (Except.ok ⟨none⟩) none).toasts.length = 1 := by
  refine ⟨rfl, rfl, by decide⟩

/-- Claim C1 as amended: a Start Trial success whose `checkout_url` is
missing or empty performs zero navigations and emits zero notifications —
the handler silently completes and the page stays on the offer state. -/
theorem checkout_missing_silent (origin : String) (result : ActivationResult)
    (navError : Option ErrorInfo) (h : jsTruthy result.checkout_url = false) :
    handleStartTrial origin (Except.ok result) navError =
      { requests := [buildRequest origin], navigations := [], toasts := [] } := by
  simp [handleStartTrial, handleStartTrialBody, h]

/-- Witness for `checkout_missing_silent` at an empty-string checkout URL. -/
theorem checkout_missing_silent_w :
    handleStartTrial "https://app.example" (Except.ok ⟨some ""⟩) none =
      { requests := [buildRequest "https://app.example"], navigations := [], toasts := [] } :=
  checkout_missing_silent "https://app.example" ⟨some ""⟩ none (by decide)

/-- Claim C5: while a start-trial request is in flight the button is
disabled, so any burst of one-or-more rapid clicks starting from an idle
state issues exactly one outbound Start Trial request: the in-flight flag
is consulted before the request is issued and later clicks are no-ops. -/
theorem single_flight_clicks (origin : String) (n : Nat) :
    rapidClicks origin { isPending := false } (n + 1) =
      ({ isPending := true }, [buildRequest origin]) := by
  simp [rapidClicks, clickStartTrial, rapidClicks_pending]

/-- Claim C6: every failed start-trial attempt surfaces exactly one toast —
the server-provided message when present and non-empty, the generic
fallback otherwise — with no navigation, so the page remains on the
offer state for a retry. -/
theorem failure_single_toast (origin : String) (e : ErrorInfo)
    (navError : Option ErrorInfo) :
    handleStartTrial origin (Except.error e) navError =
      { requests := [buildRequest origin], navigations := [], toasts := [toastMessage e] } ∧
    (∀ m, e.message = some m → (m == "") = false → toastMessage e = m) ∧
    (e.message = none → toastMessage e = fallbackMessage) ∧
    (e.message = some "" → toastMessage e = fallbackMessage) := by
  refine ⟨rfl, ?_, ?_, ?_⟩
  · intro m hm hne
    simp [toastMessage, hm, hne]
  · intro hm
    simp [toastMessage, hm]
  · intro hm
    simp [toastMessage, hm]

/-- Witness for `failure_single_toast` at a concrete server message. -/
theorem failure_single_toast_w :
    handleStartTrial "https://app.example" (Except.error ⟨some "boom"⟩) none =
      { requests := [buildRequest "https://app.example"], navigations := []
      , toasts := ["boom"] } := by
  have h := failure_single_toast "https://app.example" ⟨some "boom"⟩ none
  rw [h.1, h.2.1 "boom" rfl (by decide)]

/-- Claim C7: every `ActivationRequest` issued by `handleStartTrial` — on
any outcome — has `success_url` equal to the origin followed by
"/dashboard?trial=started" and `cancel_url` equal to the origin followed
by "/activate-trial"; both fields are always present. -/
theorem request_urls (origin : String) (outcome : Except ErrorInfo ActivationResult)
    (navError : Option ErrorInfo) :
    (handleStartTrial origin outcome navError).requests =
      [{ success_url := origin ++ "/dashboard?trial=started"
       , cancel_url := origin ++ "/activate-trial" }] := by
  rcases outcome with e | r
  · rfl
  · cases h : jsTruthy r.checkout_url <;> rcases navError with _ | e <;>
      simp [handleStartTrial, handleStartTrialBody, h, buildRequest]

/-- Claim C10: `handleStartTrial` never propagates an exception to its
caller: every failure of the request, and of the navigation step inside
the try-block, is caught and converted into the toast path, so the UI
always observes a completed invocation. -/
theorem no_exception_escape (origin : String) (outcome : Except ErrorInfo ActivationResult)
    (navError : Option ErrorInfo) :
    (∃ effs, runHandleStartTrial origin outcome navError = HandlerOutcome.completed effs) ∧
    (∀ e, handleStartTrialBody origin outcome navError = Except.error e →
      runHandleStartTrial origin outcome navError =
        HandlerOutcome.completed
          { requests := [buildRequest origin], navigations := []
          , toasts := [toastMessage e] }) := by
  constructor
  · cases hb : handleStartTrialBody origin outcome navError with
    | ok effs => exact ⟨effs, by simp [runHandleStartTrial, hb]⟩
    | error e =>
        refine ⟨{ requests := [buildRequest origin], navigations := []
                , toasts := [toastMessage e] }, ?_⟩
        simp [runHandleStartTrial, hb]
  · intro e he
    simp [runHandleStartTrial, he]

/-- Witness for `no_exception_escape` at a concrete throwing request. -/
theorem no_exception_escape_w :
    runHandleStartTrial "https://app.example" (Except.error ⟨none⟩) none =
      HandlerOutcome.completed
        { requests := [buildRequest "https://app.example"], navigations := []
        , toasts := [fallbackMessage] } :=
  (no_exception_escape "https://app.example" (Except.error ⟨none⟩) none).2 ⟨none⟩ rfl

end ActivateTrial
